import Mathlib

/-!
Verification of `Gemma/Docling_Gemma3/docling_processor.py`.

The file under verification defines one operation,
`process_document_with_docling(file_path)`, which calls an external
document-conversion capability (`Document.from_file`, `doc.to_markdown()`,
`doc.to_text()`), prints a success line and truncated previews, and
returns a two-key dictionary, while a catch-all `except Exception`
handler prints an error line and returns `None`.

Shallow embedding choices:
* Python raising is modelled with `Except PyError`; `PyError.exc`
  stands for an error in Python's `Exception` hierarchy (the hierarchy
  caught by `except Exception as e`), and `PyError.baseExc` for a raised
  signal outside that hierarchy (`KeyboardInterrupt`, `SystemExit`).
* The external conversion capability is an abstract environment
  `DoclingEnv Doc`: each of its operations may return a value or raise.
  Printing to the console is also an operation of the environment and
  may itself raise (as any Python statement may), so that the reach of
  the catch-all over the print statements is part of the model.
* The operation's result is a pair: the first component is the returned
  value (`some` result or `none`) or an uncaught propagated error, the
  second component is the list of lines actually printed, in order.
* Python string slicing `s[:500]` is modelled by `pySlice` on the list
  of characters; it is total by construction.
-/

/-- The result dictionary built on the success path: exactly two keys,
`markdown_content` and `plain_text_content`, holding the full strings. -/
structure ExtractionResult where
  markdown_content : String
  plain_text_content : String
deriving Repr, DecidableEq

/-- A raised Python signal. `exc m` is an error in the `Exception`
hierarchy carrying message `m`; `baseExc m` is a `BaseException` outside
that hierarchy (e.g. `KeyboardInterrupt`, `SystemExit`). -/
inductive PyError where
  | exc (msg : String)
  | baseExc (msg : String)
deriving Repr, DecidableEq

/-- The external collaborators of the script, as an abstract environment
over an abstract document type `Doc`: `Document.from_file`,
`doc.to_markdown()`, `doc.to_text()`, and the console `print`. Every
operation may raise. -/
structure DoclingEnv (Doc : Type) where
  from_file : String → Except PyError Doc
  to_markdown : Doc → Except PyError String
  to_text : Doc → Except PyError String
  print_line : String → Except PyError Unit

/-- Python string slicing `s[:stop]` with a nonnegative `stop`: the first
`stop` characters, or the whole string when it is shorter. Total; never
an index error. -/
def pySlice (s : String) (stop : Nat) : String :=
  String.mk (s.data.take stop)

/-- The error line printed by the `except Exception` handler,
interpolating the error's content `m`. -/
def error_message (m : String) : String :=
  "Error processing document with Docling: " ++ m

/-- The five lines printed on the success path, in program order: the
success announcement, the markdown preview header, the first 500
characters of the markdown, the plain-text preview header, the first 500
characters of the plain text. -/
def success_messages (file_path markdown_content plain_text_content : String) : List String :=
  ["Docling processing successful for: " ++ file_path,
   "\n--- Extracted Markdown (first 500 chars) ---",
   pySlice markdown_content 500,
   "\n--- Extracted Plain Text (first 500 chars) ---",
   pySlice plain_text_content 500]

/-- Run the given print statements in order, stopping at the first one
that raises. Returns the outcome and the lines actually printed. -/
def print_seq {Doc : Type} (env : DoclingEnv Doc) :
    List String → Except PyError Unit × List String
  | [] => (Except.ok (), [])
  | s :: rest =>
    match env.print_line s with
    | Except.error e => (Except.error e, [])
    | Except.ok _ =>
      let p := print_seq env rest
      (p.1, s :: p.2)

/-- The `except Exception as e` handler. An `Exception`-class error is
caught: the handler prints the error line and the function returns
`None`. A signal outside the `Exception` hierarchy does not match the
handler and propagates. If the handler's own print raises, that error
propagates (the handler body is not inside any further try). -/
def handle_except {Doc : Type} (env : DoclingEnv Doc) (e : PyError) :
    Except PyError (Option ExtractionResult) × List String :=
  match e with
  | PyError.baseExc m => (Except.error (PyError.baseExc m), [])
  | PyError.exc m =>
    match env.print_line (error_message m) with
    | Except.error e2 => (Except.error e2, [])
    | Except.ok _ => (Except.ok none, [error_message m])

/-- `process_document_with_docling(file_path)`: inside the `try` block,
convert the file, derive markdown and plain text, print the success line
and truncated previews, and return the two-key result; any raise inside
the block reaches the `except Exception` handler. The first component is
the returned value (or an uncaught propagated error), the second the
printed lines in order. -/
def process_document_with_docling {Doc : Type} (env : DoclingEnv Doc)
    (file_path : String) : Except PyError (Option ExtractionResult) × List String :=
  match env.from_file file_path with
  | Except.error e => handle_except env e
  | Except.ok doc =>
    match env.to_markdown doc with
    | Except.error e => handle_except env e
    | Except.ok markdown_content =>
      match env.to_text doc with
      | Except.error e => handle_except env e
      | Except.ok plain_text_content =>
        match print_seq env
            (success_messages file_path markdown_content plain_text_content) with
        | (Except.ok _, out) =>
          (Except.ok (some ⟨markdown_content, plain_text_content⟩), out)
        | (Except.error e, out) =>
          let h := handle_except env e
          (h.1, out ++ h.2)

/-! Concrete environments used to evaluate the model on concrete inputs. -/

/-- A conversion capability that succeeds and a console that never
raises: `from_file` yields a document rendering to a short markdown
string and a short plain-text string. -/
def env_success : DoclingEnv Unit :=
  ⟨fun _ => Except.ok (),
   fun _ => Except.ok "# Title\nHello",
   fun _ => Except.ok "Title Hello",
   fun _ => Except.ok ()⟩

/-- A conversion capability whose `from_file` raises an
`Exception`-class error (a missing file). -/
def env_missing : DoclingEnv Unit :=
  ⟨fun _ => Except.error (PyError.exc "No such file or directory"),
   fun _ => Except.ok "",
   fun _ => Except.ok "",
   fun _ => Except.ok ()⟩

/-- A conversion capability whose `from_file` raises a signal outside
the `Exception` hierarchy (a keyboard interrupt). -/
def env_interrupt : DoclingEnv Unit :=
  ⟨fun _ => Except.error (PyError.baseExc "KeyboardInterrupt"),
   fun _ => Except.ok "",
   fun _ => Except.ok "",
   fun _ => Except.ok ()⟩

/-- A capability where conversion succeeds but deriving the markdown
raises an `Exception`-class error. -/
def env_markdown_raises : DoclingEnv Unit :=
  ⟨fun _ => Except.ok (),
   fun _ => Except.error (PyError.exc "markdown fault"),
   fun _ => Except.ok "",
   fun _ => Except.ok ()⟩

/-- A capability yielding exactly ten characters of markdown and of
plain text. -/
def env_ten_chars : DoclingEnv Unit :=
  ⟨fun _ => Except.ok (),
   fun _ => Except.ok "ABCDEFGHIJ",
   fun _ => Except.ok "abcdefghij",
   fun _ => Except.ok ()⟩

/-! Helper lemmas shared by the claim theorems. -/

/-- When the console never raises, running the prints prints every line. -/
lemma print_seq_of_ok {Doc : Type} (env : DoclingEnv Doc)
    (hp : ∀ s, env.print_line s = Except.ok ()) :
    ∀ l : List String, print_seq env l = (Except.ok (), l) := by
  intro l
  induction l with
  | nil => rfl
  | cons s rest ih => simp [print_seq, hp, ih]

/-- Characterization of the success path: if every external call
succeeds and the console never raises, the function returns the two-key
result with the full strings and prints exactly the five success lines. -/
lemma process_success_eq {Doc : Type} (env : DoclingEnv Doc)
    (fp : String) (doc : Doc) (md txt : String)
    (h1 : env.from_file fp = Except.ok doc)
    (h2 : env.to_markdown doc = Except.ok md)
    (h3 : env.to_text doc = Except.ok txt)
    (hp : ∀ s, env.print_line s = Except.ok ()) :
    process_document_with_docling env fp =
      (Except.ok (some ⟨md, txt⟩), success_messages fp md txt) := by
  simp [process_document_with_docling, h1, h2, h3, print_seq_of_ok env hp]

/-- Characterization of the caught-failure path entry: when `from_file`
raises, the function's outcome is the handler's outcome. -/
lemma process_from_file_error {Doc : Type} (env : DoclingEnv Doc)
    (fp : String) (e : PyError)
    (h1 : env.from_file fp = Except.error e) :
    process_document_with_docling env fp = handle_except env e := by
  simp [process_document_with_docling, h1]

/-- The handler on an `Exception`-class error, when its own print
succeeds: return `None`, having printed the error line. -/
lemma handle_except_exc {Doc : Type} (env : DoclingEnv Doc) (m : String)
    (hp : env.print_line (error_message m) = Except.ok ()) :
    handle_except env (PyError.exc m) = (Except.ok none, [error_message m]) := by
  simp [handle_except, hp]

/-- The handler does not match a signal outside the `Exception`
hierarchy: it propagates unchanged, with nothing printed. -/
lemma handle_except_base {Doc : Type} (env : DoclingEnv Doc) (m : String) :
    handle_except env (PyError.baseExc m) = (Except.error (PyError.baseExc m), []) := rfl

/-- When conversion succeeded but deriving the markdown raises, the
outcome is the handler's outcome. -/
lemma process_to_markdown_error {Doc : Type} (env : DoclingEnv Doc)
    (fp : String) (doc : Doc) (e : PyError)
    (h1 : env.from_file fp = Except.ok doc)
    (h2 : env.to_markdown doc = Except.error e) :
    process_document_with_docling env fp = handle_except env e := by
  simp [process_document_with_docling, h1, h2]

/-- When deriving the plain text raises, the outcome is the handler's
outcome. -/
lemma process_to_text_error {Doc : Type} (env : DoclingEnv Doc)
    (fp : String) (doc : Doc) (md : String) (e : PyError)
    (h1 : env.from_file fp = Except.ok doc)
    (h2 : env.to_markdown doc = Except.ok md)
    (h3 : env.to_text doc = Except.error e) :
    process_document_with_docling env fp = handle_except env e := by
  simp [process_document_with_docling, h1, h2, h3]

/-- When one of the success-path prints raises, the lines printed so far
stay printed and the raise reaches the handler. -/
lemma process_print_error {Doc : Type} (env : DoclingEnv Doc)
    (fp : String) (doc : Doc) (md txt : String) (e : PyError) (out : List String)
    (h1 : env.from_file fp = Except.ok doc)
    (h2 : env.to_markdown doc = Except.ok md)
    (h3 : env.to_text doc = Except.ok txt)
    (hps : print_seq env (success_messages fp md txt) = (Except.error e, out)) :
    process_document_with_docling env fp =
      ((handle_except env e).1, out ++ (handle_except env e).2) := by
  simp [process_document_with_docling, h1, h2, h3, hps]

/-- When all the success-path prints succeed, the result is the two-key
record and the printed lines are exactly those prints. -/
lemma process_print_ok {Doc : Type} (env : DoclingEnv Doc)
    (fp : String) (doc : Doc) (md txt : String) (out : List String)
    (h1 : env.from_file fp = Except.ok doc)
    (h2 : env.to_markdown doc = Except.ok md)
    (h3 : env.to_text doc = Except.ok txt)
    (hps : print_seq env (success_messages fp md txt) = (Except.ok (), out)) :
    process_document_with_docling env fp = (Except.ok (some ⟨md, txt⟩), out) := by
  simp [process_document_with_docling, h1, h2, h3, hps]

/-- The handler returns `None` or propagates an error; it never returns
a present result. -/
lemma handle_except_fst {Doc : Type} (env : DoclingEnv Doc) (e : PyError) :
    (handle_except env e).1 = Except.ok none ∨
      ∃ e2, (handle_except env e).1 = Except.error e2 := by
  cases e with
  | exc m =>
    cases h : env.print_line (error_message m) with
    | error e2 => exact Or.inr ⟨e2, by simp [handle_except, h]⟩
    | ok u => exact Or.inl (by cases u; simp [handle_except, h])
  | baseExc m => exact Or.inr ⟨PyError.baseExc m, rfl⟩

/-- A string no longer than the slice bound is returned whole by the
slice. -/
lemma pySlice_of_le (s : String) (n : Nat) (h : s.length ≤ n) :
    pySlice s n = s := by
  cases s with
  | mk data =>
    simp only [pySlice]
    rw [List.take_of_length_le h]

/-- Claim C1: for every input path, if the external conversion raises an
error (any error of Python's `Exception` hierarchy: missing file,
unsupported format, internal parser fault), the function does not
propagate it: the error is caught, a message interpolating the error's
content is printed, and `None` is returned instead of raising. (The
handler's own print is assumed to succeed; a signal outside the
`Exception` hierarchy is the subject of claim C10.) -/
theorem c1_conversion_error_caught {Doc : Type} (env : DoclingEnv Doc)
    (fp m : String)
    (h1 : env.from_file fp = Except.error (PyError.exc m))
    (hp : env.print_line (error_message m) = Except.ok ()) :
    process_document_with_docling env fp = (Except.ok none, [error_message m]) := by
  rw [process_from_file_error env fp _ h1, handle_except_exc env m hp]

/-- Witness for C1 on a concrete environment whose conversion raises a
missing-file error. -/
theorem c1_conversion_error_caught_witness :
    process_document_with_docling env_missing "nofile.pdf" =
      (Except.ok none, [error_message "No such file or directory"]) :=
  c1_conversion_error_caught env_missing "nofile.pdf" "No such file or directory" rfl rfl

/-- Claim C2: on every path where the external conversion succeeds (and
the console does not raise), the function returns a record with exactly
two fields, `markdown_content` and `plain_text_content` — the type
`ExtractionResult` has exactly those two fields — holding the full,
untruncated markdown and plain-text strings derived from the document. -/
theorem c2_success_returns_full_two_field_record {Doc : Type} (env : DoclingEnv Doc)
    (fp : String) (doc : Doc) (md txt : String)
    (h1 : env.from_file fp = Except.ok doc)
    (h2 : env.to_markdown doc = Except.ok md)
    (h3 : env.to_text doc = Except.ok txt)
    (hp : ∀ s, env.print_line s = Except.ok ()) :
    (process_document_with_docling env fp).1 =
      Except.ok (some ⟨md, txt⟩) := by
  rw [process_success_eq env fp doc md txt h1 h2 h3 hp]

/-- Witness for C2 on a concrete succeeding environment. -/
theorem c2_success_returns_full_two_field_record_witness :
    (process_document_with_docling env_success "report.pdf").1 =
      Except.ok (some ⟨"# Title\nHello", "Title Hello"⟩) :=
  c2_success_returns_full_two_field_record env_success "report.pdf" () "# Title\nHello"
    "Title Hello" rfl rfl rfl (fun _ => rfl)

/-- Claim C3: over all invocations, a present `ExtractionResult` arises
only when the underlying conversion succeeded and its fields are exactly
the conversion's outputs; otherwise the returned value is `None` or a
propagated error — never a partial record (no partial record is even
constructible: the disjunction below is exhaustive over all
environments, and its branches are mutually exclusive because
`Except.ok (some r)`, `Except.ok none` and `Except.error e` are distinct
constructors). -/
theorem c3_outcomes_exhaustive {Doc : Type} (env : DoclingEnv Doc) (fp : String) :
    (∃ r doc, (process_document_with_docling env fp).1 = Except.ok (some r) ∧
       env.from_file fp = Except.ok doc ∧
       env.to_markdown doc = Except.ok r.markdown_content ∧
       env.to_text doc = Except.ok r.plain_text_content) ∨
    (process_document_with_docling env fp).1 = Except.ok none ∨
    (∃ e, (process_document_with_docling env fp).1 = Except.error e) := by
  cases h1 : env.from_file fp with
  | error e =>
    rw [process_from_file_error env fp e h1]
    rcases handle_except_fst env e with h | h
    · exact Or.inr (Or.inl h)
    · exact Or.inr (Or.inr h)
  | ok doc =>
    cases h2 : env.to_markdown doc with
    | error e =>
      rw [process_to_markdown_error env fp doc e h1 h2]
      rcases handle_except_fst env e with h | h
      · exact Or.inr (Or.inl h)
      · exact Or.inr (Or.inr h)
    | ok md =>
      cases h3 : env.to_text doc with
      | error e =>
        rw [process_to_text_error env fp doc md e h1 h2 h3]
        rcases handle_except_fst env e with h | h
        · exact Or.inr (Or.inl h)
        · exact Or.inr (Or.inr h)
      | ok txt =>
        cases hps : print_seq env (success_messages fp md txt) with
        | mk r out =>
          cases r with
          | ok u =>
            cases u
            rw [process_print_ok env fp doc md txt out h1 h2 h3 hps]
            exact Or.inl ⟨⟨md, txt⟩, doc, rfl, rfl, h2, h3⟩
          | error e =>
            rw [process_print_error env fp doc md txt e out h1 h2 h3 hps]
            rcases handle_except_fst env e with h | h
            · exact Or.inr (Or.inl h)
            · exact Or.inr (Or.inr h)

/-- Claim C4: when the conversion succeeds on a valid document and
yields non-empty markdown and non-empty plain text (and the console does
not raise), the function returns a present result whose two fields are
both non-empty. -/
theorem c4_valid_input_nonempty_result {Doc : Type} (env : DoclingEnv Doc)
    (fp : String) (doc : Doc) (md txt : String)
    (h1 : env.from_file fp = Except.ok doc)
    (h2 : env.to_markdown doc = Except.ok md)
    (h3 : env.to_text doc = Except.ok txt)
    (hp : ∀ s, env.print_line s = Except.ok ())
    (hmd : md ≠ "") (htxt : txt ≠ "") :
    ∃ r, (process_document_with_docling env fp).1 = Except.ok (some r) ∧
      r.markdown_content ≠ "" ∧ r.plain_text_content ≠ "" :=
  ⟨⟨md, txt⟩, by rw [process_success_eq env fp doc md txt h1 h2 h3 hp], hmd, htxt⟩

/-- Witness for C4 on a concrete succeeding environment with non-empty
content. -/
theorem c4_valid_input_nonempty_result_witness :
    ∃ r, (process_document_with_docling env_success "report.pdf").1 =
        Except.ok (some r) ∧
      r.markdown_content ≠ "" ∧ r.plain_text_content ≠ "" :=
  c4_valid_input_nonempty_result env_success "report.pdf" () "# Title\nHello" "Title Hello"
    rfl rfl rfl (fun _ => rfl) (by decide) (by decide)

/-- Claim C5: determinism of the operation given a deterministic
conversion capability (a `DoclingEnv` is a function of its inputs, which
is exactly the determinism assumption): two calls on the same unchanged
input that both return a present result return equal `markdown_content`
and equal `plain_text_content`. -/
theorem c5_deterministic {Doc : Type} (env : DoclingEnv Doc) (fp : String)
    (r1 r2 : ExtractionResult) (o1 o2 : List String)
    (hc1 : process_document_with_docling env fp = (Except.ok (some r1), o1))
    (hc2 : process_document_with_docling env fp = (Except.ok (some r2), o2)) :
    r1.markdown_content = r2.markdown_content ∧
      r1.plain_text_content = r2.plain_text_content := by
  rw [hc1] at hc2
  simp only [Prod.mk.injEq, Except.ok.injEq, Option.some.injEq] at hc2
  obtain ⟨h, -⟩ := hc2
  subst h
  exact ⟨rfl, rfl⟩

/-- Witness for C5: two evaluations on the same concrete environment. -/
theorem c5_deterministic_witness :
    (⟨"# Title\nHello", "Title Hello"⟩ : ExtractionResult).markdown_content =
        (⟨"# Title\nHello", "Title Hello"⟩ : ExtractionResult).markdown_content ∧
      (⟨"# Title\nHello", "Title Hello"⟩ : ExtractionResult).plain_text_content =
        (⟨"# Title\nHello", "Title Hello"⟩ : ExtractionResult).plain_text_content :=
  c5_deterministic env_success "report.pdf" _ _ _ _ rfl rfl

/-- Claim C6: the truncated preview step is total for strings of any
length — the slice is defined without any index error — and for content
shorter than the 500-character truncation length the preview printed is
the whole string: a document yielding 10 characters logs those 10
characters. -/
theorem c6_short_content_previewed_whole {Doc : Type} (env : DoclingEnv Doc)
    (fp : String) (doc : Doc) (md txt : String)
    (h1 : env.from_file fp = Except.ok doc)
    (h2 : env.to_markdown doc = Except.ok md)
    (h3 : env.to_text doc = Except.ok txt)
    (hp : ∀ s, env.print_line s = Except.ok ())
    (hmd : md.length ≤ 500) (htxt : txt.length ≤ 500) :
    (process_document_with_docling env fp).2 =
      ["Docling processing successful for: " ++ fp,
       "\n--- Extracted Markdown (first 500 chars) ---",
       md,
       "\n--- Extracted Plain Text (first 500 chars) ---",
       txt] := by
  rw [process_success_eq env fp doc md txt h1 h2 h3 hp]
  simp only [success_messages, pySlice_of_le md 500 hmd, pySlice_of_le txt 500 htxt]

/-- Witness for C6: a document yielding exactly 10 characters of
markdown and of plain text logs those strings whole. -/
theorem c6_short_content_previewed_whole_witness :
    (process_document_with_docling env_ten_chars "short.pdf").2 =
      ["Docling processing successful for: short.pdf",
       "\n--- Extracted Markdown (first 500 chars) ---",
       "ABCDEFGHIJ",
       "\n--- Extracted Plain Text (first 500 chars) ---",
       "abcdefghij"] :=
  c6_short_content_previewed_whole env_ten_chars "short.pdf" () "ABCDEFGHIJ" "abcdefghij"
    rfl rfl rfl (fun _ => rfl) (by decide) (by decide)

/-- Claim C7: on every successful conversion (console not raising), the
function prints the success announcement naming the path and previews
that are the first 500 characters of the markdown and of the plain text
(`pySlice _ 500` is the whole string when it is shorter than 500). -/
theorem c7_success_log_lines {Doc : Type} (env : DoclingEnv Doc)
    (fp : String) (doc : Doc) (md txt : String)
    (h1 : env.from_file fp = Except.ok doc)
    (h2 : env.to_markdown doc = Except.ok md)
    (h3 : env.to_text doc = Except.ok txt)
    (hp : ∀ s, env.print_line s = Except.ok ()) :
    (process_document_with_docling env fp).2 =
      ["Docling processing successful for: " ++ fp,
       "\n--- Extracted Markdown (first 500 chars) ---",
       pySlice md 500,
       "\n--- Extracted Plain Text (first 500 chars) ---",
       pySlice txt 500] := by
  rw [process_success_eq env fp doc md txt h1 h2 h3 hp]
  rfl

/-- Witness for C7 on a concrete succeeding environment. -/
theorem c7_success_log_lines_witness :
    (process_document_with_docling env_success "report.pdf").2 =
      ["Docling processing successful for: report.pdf",
       "\n--- Extracted Markdown (first 500 chars) ---",
       pySlice "# Title\nHello" 500,
       "\n--- Extracted Plain Text (first 500 chars) ---",
       pySlice "Title Hello" 500] :=
  c7_success_log_lines env_success "report.pdf" () "# Title\nHello" "Title Hello"
    rfl rfl rfl (fun _ => rfl)

/-- Counterexample to claim C8 as stated: on a successful conversion the
function executes five print statements (success line, two preview
headers, two previews), not exactly two; here a concrete success run
prints five lines. -/
theorem c8_counterexample_five_prints_on_success :
    (process_document_with_docling env_success "report.pdf").1 =
        Except.ok (some ⟨"# Title\nHello", "Title Hello"⟩) ∧
      (process_document_with_docling env_success "report.pdf").2.length = 5 ∧
      ¬ (process_document_with_docling env_success "report.pdf").2.length = 2 :=
  ⟨rfl, rfl, by decide⟩

/-- Claim C8 as amended: the only side effects are the printed lines
(the model's sole effect channel — the function is otherwise pure, with
no filesystem, network, or persisted state), with exactly FIVE
informational prints on the success path and exactly one on the
caught-failure path. -/
theorem c8_amended_print_counts {Doc : Type} (env : DoclingEnv Doc) (fp : String)
    (hp : ∀ s, env.print_line s = Except.ok ()) :
    (∀ doc md txt, env.from_file fp = Except.ok doc →
       env.to_markdown doc = Except.ok md →
       env.to_text doc = Except.ok txt →
       (process_document_with_docling env fp).2.length = 5) ∧
    (∀ m, env.from_file fp = Except.error (PyError.exc m) →
       (process_document_with_docling env fp).2.length = 1) := by
  constructor
  · intro doc md txt h1 h2 h3
    rw [process_success_eq env fp doc md txt h1 h2 h3 hp]
    rfl
  · intro m h1
    rw [process_from_file_error env fp _ h1, handle_except_exc env m (hp _)]
    rfl

/-- Witness for the amended C8: the success path of a concrete run
prints five lines. -/
theorem c8_amended_print_counts_witness :
    (process_document_with_docling env_success "report.pdf").2.length = 5 :=
  (c8_amended_print_counts env_success "report.pdf" (fun _ => rfl)).1
    () "# Title\nHello" "Title Hello" rfl rfl rfl

/-- Claim C9: the catch-all boundary encloses the whole `try` block, not
just the conversion call: an `Exception`-class raise while deriving the
markdown, while deriving the plain text, or while printing the previews
(after a successful conversion) is also caught and turns the outcome
into a returned `None`, never a propagated error or partial result. -/
theorem c9_catch_covers_later_stages {Doc : Type} (env : DoclingEnv Doc)
    (fp m : String) (doc : Doc)
    (h1 : env.from_file fp = Except.ok doc)
    (hp : env.print_line (error_message m) = Except.ok ()) :
    (env.to_markdown doc = Except.error (PyError.exc m) →
       (process_document_with_docling env fp).1 = Except.ok none) ∧
    (∀ md, env.to_markdown doc = Except.ok md →
       env.to_text doc = Except.error (PyError.exc m) →
       (process_document_with_docling env fp).1 = Except.ok none) ∧
    (∀ md txt out, env.to_markdown doc = Except.ok md →
       env.to_text doc = Except.ok txt →
       print_seq env (success_messages fp md txt) = (Except.error (PyError.exc m), out) →
       (process_document_with_docling env fp).1 = Except.ok none) := by
  refine ⟨fun h2 => ?_, fun md h2 h3 => ?_, fun md txt out h2 h3 hps => ?_⟩
  · rw [process_to_markdown_error env fp doc _ h1 h2, handle_except_exc env m hp]
  · rw [process_to_text_error env fp doc md _ h1 h2 h3, handle_except_exc env m hp]
  · rw [process_print_error env fp doc md txt _ out h1 h2 h3 hps,
      handle_except_exc env m hp]

/-- Witness for C9: a concrete run where the conversion succeeds but the
markdown derivation raises returns `None`. -/
theorem c9_catch_covers_later_stages_witness :
    (process_document_with_docling env_markdown_raises "report.pdf").1 =
      Except.ok none :=
  (c9_catch_covers_later_stages env_markdown_raises "report.pdf" "markdown fault" ()
    rfl rfl).1 rfl

/-- Claim C10: the handler matches only Python's `Exception` hierarchy;
a raised signal outside it (`KeyboardInterrupt`, `SystemExit`) is not
caught: it propagates to the caller unchanged instead of being converted
to `None`, and the error line is not printed. -/
theorem c10_base_exception_propagates {Doc : Type} (env : DoclingEnv Doc)
    (fp m : String)
    (h1 : env.from_file fp = Except.error (PyError.baseExc m)) :
    process_document_with_docling env fp = (Except.error (PyError.baseExc m), []) := by
  rw [process_from_file_error env fp _ h1, handle_except_base]

/-- Witness for C10: a keyboard interrupt during conversion propagates. -/
theorem c10_base_exception_propagates_witness :
    process_document_with_docling env_interrupt "report.pdf" =
      (Except.error (PyError.baseExc "KeyboardInterrupt"), []) :=
  c10_base_exception_propagates env_interrupt "report.pdf" "KeyboardInterrupt" rfl
